import Mathlib

/-!
Verification development for the `timesearch_modules` command-routing and
help-text subsystem (`timesearch_modules/__init__.py`).

Python strings are embedded as Lean `String`s; the character-level helpers
below work on `String.data` (the list of characters) so that universally
quantified properties of the text utilities can be proved by induction.
Effects (printing, lazily importing a collaborator module, raising an
exception) are made explicit: the dispatcher returns the list of events it
produced together with its outcome.
-/

/-- Python `str.isspace` on the ASCII whitespace characters; used to model
`str.strip()` for the lines handled here. -/
def pyIsSpace (c : Char) : Bool :=
  c = ' ' || c = '\t' || c = '\n' || c = '\x0b' || c = '\x0c' || c = '\r'

/-- Python `line.strip()` on the character list: remove leading and trailing
whitespace. -/
def stripChars (l : List Char) : List Char :=
  ((l.dropWhile pyIsSpace).reverse.dropWhile pyIsSpace).reverse

/-- Python `text.split('\n')` on the character list: split on every newline;
the empty string yields one empty line. -/
def splitLinesChars : List Char → List (List Char)
  | [] => [[]]
  | c :: rest =>
    match splitLinesChars rest with
    | [] => [[]]
    | line :: lines =>
      if c = '\n' then [] :: line :: lines else (c :: line) :: lines

/-- Python `'\n'.join(lines)` on character lists. -/
def joinLinesChars : List (List Char) → List Char
  | [] => []
  | [l] => l
  | l :: ls => l ++ '\n' :: joinLinesChars ls

/-- Character-level body of `indent` (src lines 288-290): prefix each line
whose strip is nonempty with `spaces` copies of a space, rejoin with
newlines. -/
def indentChars (text : List Char) (spaces : Nat) : List Char :=
  joinLinesChars ((splitLinesChars text).map
    (fun line => if stripChars line ≠ [] then List.replicate spaces ' ' ++ line else line))

/-- `indent(text, spaces)` (src lines 288-290); the source's default width
is 4, passed explicitly by every caller here. -/
def indent (text : String) (spaces : Nat) : String :=
  String.mk (indentChars text.data spaces)

/-- Character-level body of `docstring_preview`: `text.split('\n\n')[0]`,
i.e. the prefix of the text before the first occurrence of two consecutive
newlines (the whole text when there is none). -/
def previewChars : List Char → List Char
  | '\n' :: '\n' :: _ => []
  | c :: rest => c :: previewChars rest
  | [] => []

/-- `docstring_preview(text)` (src lines 275-280): the brief description at
the top of the text. -/
def docstring_preview (text : String) : String :=
  String.mk (previewChars text.data)

/-- Python `str.lower()`: lowercase each character; embedded at the
character-list level (equal to `String.toLower`, whose `String.mapAux` layer
is not kernel-reducible). -/
def pyLower (s : String) : String := String.mk (s.data.map Char.toLower)

/-- Python list indexing `li[index]`: a negative index counts from the end;
an index outside `-len .. len-1` raises IndexError, modelled as `none`. -/
def pyIndex {α : Type} (li : List α) (index : Int) : Option α :=
  if index < 0 then
    let j := index + li.length
    if j < 0 then none else li[j.toNat]?
  else li[index.toNat]?

/-- `listget(li, index, fallback)` (src lines 282-286): `li[index]`, with the
IndexError case caught and replaced by the fallback. -/
def listget {α : Type} (li : List α) (index : Int) (fallback : α) : α :=
  match pyIndex li index with
  | some x => x
  | none => fallback

/-- Python `dict.get(key, fallback)` over an association list with unique
keys (the shape of every dict in this module). -/
def dictGet {β : Type} (d : List (String × β)) (key : String) (fallback : β) : β :=
  match d with
  | [] => fallback
  | p :: rest => if p.1 = key then p.2 else dictGet rest key fallback

/-- Python `key in dict` over an association list. -/
def dictContains {β : Type} (d : List (String × β)) (key : String) : Bool :=
  match d with
  | [] => false
  | p :: rest => p.1 == key || dictContains rest key

/-- Character-level body of Python `template.format(**table)` for the shape
used by this module: each `\x7bname\x7d` placeholder is replaced by the
table's value for `name`. The second argument carries the name being read
while inside a placeholder. The template here contains no escaped braces and
every placeholder name is a key of the table, so those cases need no model. -/
def pyFormatChars (table : List (String × String)) : List Char → Option (List Char) → List Char
  | [], _ => []
  | c :: rest, none =>
    if c = '\x7b' then pyFormatChars table rest (some [])
    else c :: pyFormatChars table rest none
  | c :: rest, some name =>
    if c = '\x7d' then
      (dictGet table (String.mk name) "").data ++ pyFormatChars table rest none
    else pyFormatChars table rest (some (name ++ [c]))

/-- Python `template.format(**table)` (src line 297). -/
def pyFormat (template : String) (table : List (String × String)) : String :=
  String.mk (pyFormatChars table template.data none)
/-- The initial DOCSTRING literal (src lines 11-41), before .format is applied. -/
def DOCSTRING_TEMPLATE : String := "
Timesearch
The subreddit archiver

The basics:
1. Collect a subreddit\x27s submissions
    > timesearch.py get_submissions -r subredditname

2. Collect the comments for those submissions
    > timesearch.py get_comments -r subredditname

3. Stay up-to-date
    > timesearch.py livestream -r subredditname


Commands for collecting:
{get_submissions}
{get_comments}
{livestream}
{getstyles}
{getwiki}

Commands for processing:
{offline_reading}
{index}
{breakdown}
{mergedb}

TO SEE DETAILS ON EACH COMMAND, RUN
> timesearch.py <command>
"

/-- MODULE_DOCSTRINGS (src lines 43-266): the command registry mapping each
canonical command name to its full help text, embedded as an association list
in source order. -/
def MODULE_DOCSTRINGS : List (String × String) := [
  ("breakdown",
   "
breakdown:
    Give the comment / submission counts for users in a subreddit, or
    the subreddits that a user posts to.

    Automatically dumps into a <database>_breakdown.json file
    in the same directory as the database.

    > timesearch.py breakdown -r subredditname <flags>
    > timesearch.py breakdown -u username <flags>

    flags:
    -r \"test\" | --subreddit \"test\":
        The subreddit database to break down.

    -u \"test\" | --username \"test\":
        The username database to break down.

    --sort \"name\" | \"submissions\" | \"comments\" | \"total_posts\"
        Sort the output.
"),
  ("get_comments",
   "
get_comments:
    Collect comments on a subreddit or comments made by a user.

    > timesearch.py get_comments -r subredditname <flags>
    > timesearch.py get_comments -u username <flags>

    flags:
    -s \"t3_xxxxxx\" | --specific \"t3_xxxxxx\":
        Given a submission ID, t3_xxxxxx, scan only that submission.

    -l \"update\" | --lower \"update\":
        If a number - the unix timestamp to start at.
        If \"update\" - continue from latest comment in db.
        Default: update

    -up 1467460221 | --upper 1467460221:
        If a number - the unix timestamp to stop at.
        If not provided - stop at current time.
        Default: current time

    --dont_supplement:
        If provided, trust the pushshift data and do not fetch live copies
        from reddit.

    -v | --verbose:
        If provided, print extra information to the screen.
"),
  ("getstyles",
   "
getstyles:
    Collect the stylesheet, and css images.

    > timesearch.py getstyles -r subredditname
"),
  ("getwiki",
   "
getwiki:
    Collect all available wiki pages.

    > timesearch.py getwiki -r subredditname
"),
  ("mergedb",
   "
mergedb:
    Copy all new posts from one timesearch database into another.

    > timesearch mergedb --from redditdev1.db --to redditdev2.db

    flags:
    --from:
        The database file containing the posts you wish to copy.

    --to:
        The database file to which you will copy the posts.
        The database is modified in-place.
        Existing posts will be ignored and not updated.
"),
  ("livestream",
   "
livestream:
    Continously collect submissions and/or comments.

    > timesearch.py livestream -r subredditname <flags>
    > timesearch.py livestream -u username <flags>

    flags:
    -r \"test\" | --subreddit \"test\":
        The subreddit to collect from.

    -u \"test\" | --username \"test\":
        The redditor to collect from.

    -s | --submissions:
        If provided, do collect submissions. Otherwise don\x27t.

    -c | --comments:
        If provided, do collect comments. Otherwise don\x27t.

    If submissions and comments are BOTH left unspecified, then they will
    BOTH be collected.

    -v | --verbose:
        If provided, print extra information to the screen.

    -w 30 | --wait 30:
        The number of seconds to wait between cycles.

    -1 | --once:
        If provided, only do a single loop. Otherwise go forever.
"),
  ("offline_reading",
   "
offline_reading:
    Render submissions and comment threads to HTML via Markdown.

    > timesearch.py offline_reading -r subredditname <flags>
    > timesearch.py offline_reading -u username <flags>

    flags:
    -s \"t3_xxxxxx\" | --specific \"t3_xxxxxx\":
        Given a submission ID, t3_xxxxxx, render only that submission.
        Otherwise render every submission in the database.
"),
  ("index",
   "
index:
    Dump submission listings to a plaintext or HTML file.

    > timesearch.py index -r subredditname <flags>
    > timesearch.py index -u username <flags>

    flags:
    -r \"test\" | --subreddit \"test\":
        The subreddit database to dump

    -u \"test\" | --username \"test\":
        The username database to dump

    --html:
        Write HTML files instead of plain text.

    --offline:
        The links in the mash will point to the files generated by
        offline_reading. That is, `../offline_reading/fullname.html` instead
        of `http://redd.it/id`. This will NOT trigger offline_reading to
        generate the files now, so you must run that tool separately.

    -st 50 | --score_threshold 50:
        Only mash posts with at least this many points.
        Applies to ALL mashes!

    --all:
        Perform all of the mashes listed below.

    --date:
        Perform a mash sorted by date.

    --title:
        Perform a mash sorted by title.

    --score:
        Perform a mash sorted by score.

    --author:
        For subreddit databases only.
        Perform a mash sorted by author.

    --sub:
        For username databases only.
        Perform a mash sorted by subreddit.

    --flair:
        Perform a mash sorted by flair.

    examples:
        `timesearch index -r botwatch --date`
        does only the date file.

        `timesearch index -r botwatch --score --title`
        does both the score and title files.

        `timesearch index -r botwatch --score --score_threshold 50`
        only shows submissions with >= 50 points.

        `timesearch index -r botwatch --all`
        performs all of the different mashes.
"),
  ("get_submissions",
   "
get_submissions:
    Collect submissions from the subreddit across all of history, or
    Collect submissions by a user (as many as possible).

    > timesearch.py get_submissions -r subredditname <flags>
    > timesearch.py get_submissions -u username <flags>

    -r \"test\" | --subreddit \"test\":
        The subreddit to scan. Mutually exclusive with username.

    -u \"test\" | --username \"test\":
        The user to scan. Mutually exclusive with subreddit.

    -l \"update\" | --lower \"update\":
        If a number - the unix timestamp to start at.
        If \"update\" - continue from latest submission in db.
        Default: update

    -up 1467460221 | --upper 1467460221:
        If a number - the unix timestamp to stop at.
        If not provided - stop at current time.
        Default: current time

    --dont_supplement:
        If provided, trust the pushshift data and do not fetch live copies
        from reddit.

    -v | --verbose:
        If provided, print extra information to the screen.
")]

/-- OLD_COMMAND_ALIASES (src lines 268-272). -/
def OLD_COMMAND_ALIASES : List (String × String) := [("timesearch", "get_submissions"), ("commentaugment", "get_comments"), ("redmash", "index")]

/-- docstring_headers (src lines 292-295): each command's short description,
indented by the default width 4. -/
def docstring_headers : List (String × String) :=
  MODULE_DOCSTRINGS.map (fun p => (p.1, indent (docstring_preview p.2) 4))

/-- DOCSTRING (src line 297): the global help document, the template with
each command's indented short description substituted in. -/
def DOCSTRING : String :=
  pyFormat DOCSTRING_TEMPLATE docstring_headers

/-- The `helpstrings` set from `main` (src line 413), as a list. -/
def helpstrings : List String := ["", "help", "-h", "--help"]

/-- `command in MODULE_DOCSTRINGS` (src line 419): registry key membership. -/
def moduleDocstringsContains (command : String) : Bool :=
  dictContains MODULE_DOCSTRINGS command

/-- `MODULE_DOCSTRINGS[command]` (src line 430); only reached after the
membership check, so the KeyError case (modelled by the empty fallback) never
arises on the guarded path. -/
def moduleDocstringsGet (command : String) : String :=
  dictGet MODULE_DOCSTRINGS command ""

/-- `OLD_COMMAND_ALIASES.get(command, command)` (src line 416): alias
resolution, a pure total function with no error case. -/
def resolveAlias (command : String) : String :=
  dictGet OLD_COMMAND_ALIASES command command

/-- Src lines 415-416: the first token of the argument vector, lowercased,
then passed through alias resolution. -/
def resolvedCommand (argv : List String) : String :=
  resolveAlias (pyLower (listget argv 0 ""))

/-- Src line 428: the second token of the argument vector, lowercased. -/
def secondArgument (argv : List String) : String :=
  pyLower (listget argv 1 "")

/-- The subcommand spellings accepted literally by the argparse parser
(src lines 342-410): every `add_parser` name together with its parser-level
aliases. -/
def subcommandNames : List String :=
  ["breakdown", "get_comments", "commentaugment", "getstyles", "getwiki",
   "livestream", "mergedb", "offline_reading", "index", "redmash",
   "get_submissions", "timesearch"]

/-- An observable effect of one invocation: a line printed by the dispatcher
or a handler, or the lazy import of a collaborator module by a gateway. -/
inductive Event where
  | printed (s : String)
  | loadedModule (m : String)
deriving DecidableEq

/-- Modelled from the spec: the collaborator failures a handler can raise.
`timesearch_modules.exceptions` is not under src/; the dispatcher recognizes
exactly its DatabaseNotFound kind (carrying its `str(e)` message), and every
other failure is opaque to this layer. -/
inductive PyExc where
  | databaseNotFound (msg : String)
  | otherExc (tag : String)
deriving DecidableEq

/-- Modelled from the spec: what invoking a handler does — complete normally
with a Python return value (which `main` discards), or raise. -/
inductive HandlerOutcome where
  | returns (v : Int)
  | raises (e : PyExc)
deriving DecidableEq

/-- How one `main(argv)` invocation ends: a normal return with an exit code,
the SystemExit raised by `parser.parse_args` on a rejected vector, or an
exception from the handler propagating uncaught through `main`. -/
inductive MainOutcome where
  | exit (code : Int)
  | parseExit (code : Int)
  | raised (e : PyExc)
deriving DecidableEq

/-- Modelled from the spec: a gateway function (src lines 302-336) lazily
imports its collaborator module at call time and then runs the collaborator's
entry point, whose behavior (`run`) is outside src/. -/
def gateway {Parsed : Type} (moduleName : String)
    (run : Parsed → List Event × HandlerOutcome) (args : Parsed) :
    List Event × HandlerOutcome :=
  let r := run args
  (Event.loadedModule moduleName :: r.1, r.2)

/-- `main(argv)` (src lines 412-442; named `mainDispatch` here because Lean
reserves `main` for executables). `parseArgs` stands for
`parser.parse_args` (the argparse library is outside this module: it either
raises SystemExit with an exit code or yields parsed args carrying `func`),
and `func` stands for `args.func`, the handler chosen by the parser. The
returned list collects the events of the invocation in order. -/
def mainDispatch {Parsed : Type} (parseArgs : List String → Except Int Parsed)
    (func : Parsed → List Event × HandlerOutcome) (argv : List String) :
    List Event × MainOutcome :=
  let command := resolvedCommand argv
  if ! moduleDocstringsContains command then
    (Event.printed DOCSTRING ::
      (if command = "" then
        [Event.printed "You are seeing the default help text because you did not choose a command."]
      else if ! helpstrings.contains command then
        [Event.printed ("You are seeing the default help text because \"" ++ command ++ "\" was not recognized")]
      else []),
     MainOutcome.exit 1)
  else
    let argument := secondArgument argv
    if helpstrings.contains argument then
      ([Event.printed (moduleDocstringsGet command)], MainOutcome.exit 1)
    else
      match parseArgs argv with
      | Except.error code => ([], MainOutcome.parseExit code)
      | Except.ok args =>
        match func args with
        | (evs, HandlerOutcome.returns _) => (evs, MainOutcome.exit 0)
        | (evs, HandlerOutcome.raises (PyExc.databaseNotFound msg)) =>
          (evs ++ [Event.printed (msg ++ "\nHave you used any of the other utilities to collect data?")],
           MainOutcome.exit 1)
        | (evs, HandlerOutcome.raises e) => (evs, MainOutcome.raised e)

theorem splitLinesChars_ne_nil (l : List Char) : splitLinesChars l ≠ [] := by
  induction l with
  | nil => simp [splitLinesChars]
  | cons c rest ih =>
    rw [splitLinesChars]
    cases h : splitLinesChars rest with
    | nil => exact absurd h ih
    | cons line lines => by_cases hc : c = '\n' <;> simp [hc]

theorem splitLinesChars_no_newline (l : List Char) :
    ∀ line ∈ splitLinesChars l, '\n' ∉ line := by
  induction l with
  | nil =>
    intro line h
    simp [splitLinesChars] at h
    simp [h]
  | cons c rest ih =>
    intro line hmem
    rw [splitLinesChars] at hmem
    cases h : splitLinesChars rest with
    | nil => exact absurd h (splitLinesChars_ne_nil rest)
    | cons l0 ls =>
      rw [h] at hmem
      have ih0 : '\n' ∉ l0 := ih l0 (h ▸ List.mem_cons_self l0 ls)
      have ihtail : ∀ x ∈ ls, '\n' ∉ x := fun x hx => ih x (h ▸ List.mem_cons_of_mem l0 hx)
      by_cases hc : c = '\n'
      · simp [hc] at hmem
        rcases hmem with rfl | rfl | hmem
        · simp
        · exact ih0
        · exact ihtail line hmem
      · simp [hc] at hmem
        rcases hmem with rfl | hmem
        · intro habs
          cases habs with
          | head => exact hc rfl
          | tail _ htail => exact ih0 htail
        · exact ihtail line hmem

theorem splitLinesChars_of_no_newline (l : List Char) (h : '\n' ∉ l) :
    splitLinesChars l = [l] := by
  induction l with
  | nil => rfl
  | cons c rest ih =>
    have hc : c ≠ '\n' := fun hc => h (hc ▸ List.mem_cons_self c rest)
    have hrest : '\n' ∉ rest := fun hr => h (List.mem_cons_of_mem c hr)
    rw [splitLinesChars, ih hrest]
    simp [hc]

theorem splitLinesChars_append_newline (l t : List Char) (h : '\n' ∉ l) :
    splitLinesChars (l ++ '\n' :: t) = l :: splitLinesChars t := by
  induction l with
  | nil =>
    rw [List.nil_append, splitLinesChars]
    cases ht : splitLinesChars t with
    | nil => exact absurd ht (splitLinesChars_ne_nil t)
    | cons line lines => simp
  | cons c rest ih =>
    have hc : c ≠ '\n' := fun hc => h (hc ▸ List.mem_cons_self c rest)
    have hrest : '\n' ∉ rest := fun hr => h (List.mem_cons_of_mem c hr)
    rw [List.cons_append, splitLinesChars, ih hrest]
    simp [hc]

theorem splitLinesChars_joinLinesChars (ls : List (List Char)) (hne : ls ≠ [])
    (h : ∀ l ∈ ls, '\n' ∉ l) : splitLinesChars (joinLinesChars ls) = ls := by
  induction ls with
  | nil => exact absurd rfl hne
  | cons l rest ih =>
    cases rest with
    | nil =>
      rw [joinLinesChars]
      exact splitLinesChars_of_no_newline l (h l (List.mem_cons_self l []))
    | cons l2 rest2 =>
      rw [joinLinesChars, splitLinesChars_append_newline l _ (h l (List.mem_cons_self l _)),
        ih (List.cons_ne_nil l2 rest2) (fun x hx => h x (List.mem_cons_of_mem l hx))]
      exact List.cons_ne_nil l2 rest2

/-- C9: for every input text and requested width, the lines of
`indent text width` are exactly the lines of `text`, with every line that is
blank after stripping returned unchanged and every other line prefixed by
exactly `width` spaces; in particular `indent` is the identity on blank
lines. -/
theorem indent_blank_preserving (text : String) (spaces : Nat) :
    splitLinesChars (indent text spaces).data =
      (splitLinesChars text.data).map
        (fun line => if stripChars line = [] then line
                     else List.replicate spaces ' ' ++ line) := by
  show splitLinesChars (indentChars text.data spaces) = _
  unfold indentChars
  rw [splitLinesChars_joinLinesChars]
  · simp only [ne_eq, ite_not]
  · intro hmap
    exact splitLinesChars_ne_nil text.data (List.map_eq_nil_iff.mp hmap)
  · intro l hl
    rcases List.mem_map.mp hl with ⟨line, hline, rfl⟩
    have hnl : '\n' ∉ line := splitLinesChars_no_newline text.data line hline
    by_cases hs : stripChars line ≠ []
    · rw [if_pos hs]
      intro hmem
      rcases List.mem_append.mp hmem with hrep | hline2
      · exact absurd (List.mem_replicate.mp hrep).2 (by decide)
      · exact hnl hline2
    · rw [if_neg hs]
      exact hnl

theorem mainDispatch_eq_unrecognized {Parsed : Type}
    (parseArgs : List String → Except Int Parsed)
    (func : Parsed → List Event × HandlerOutcome) (argv : List String)
    (h : moduleDocstringsContains (resolvedCommand argv) = false) :
    mainDispatch parseArgs func argv =
      (Event.printed DOCSTRING ::
        (if resolvedCommand argv = "" then
          [Event.printed "You are seeing the default help text because you did not choose a command."]
        else if ! helpstrings.contains (resolvedCommand argv) then
          [Event.printed ("You are seeing the default help text because \"" ++ resolvedCommand argv ++ "\" was not recognized")]
        else []),
       MainOutcome.exit 1) := by
  simp only [mainDispatch, h, Bool.not_false, if_true]

theorem mainDispatch_eq_command_help {Parsed : Type}
    (parseArgs : List String → Except Int Parsed)
    (func : Parsed → List Event × HandlerOutcome) (argv : List String)
    (h1 : moduleDocstringsContains (resolvedCommand argv) = true)
    (h2 : helpstrings.contains (secondArgument argv) = true) :
    mainDispatch parseArgs func argv =
      ([Event.printed (moduleDocstringsGet (resolvedCommand argv))], MainOutcome.exit 1) := by
  simp only [mainDispatch, h1, h2, Bool.not_true, Bool.false_eq_true, if_false, if_true]

theorem mainDispatch_eq_parse_error {Parsed : Type}
    (parseArgs : List String → Except Int Parsed)
    (func : Parsed → List Event × HandlerOutcome) (argv : List String) (code : Int)
    (h1 : moduleDocstringsContains (resolvedCommand argv) = true)
    (h2 : helpstrings.contains (secondArgument argv) = false)
    (h3 : parseArgs argv = Except.error code) :
    mainDispatch parseArgs func argv = ([], MainOutcome.parseExit code) := by
  simp only [mainDispatch, h1, h2, h3, Bool.not_true, Bool.false_eq_true, if_false]

theorem mainDispatch_eq_handler {Parsed : Type}
    (parseArgs : List String → Except Int Parsed)
    (func : Parsed → List Event × HandlerOutcome) (argv : List String) (args : Parsed)
    (h1 : moduleDocstringsContains (resolvedCommand argv) = true)
    (h2 : helpstrings.contains (secondArgument argv) = false)
    (h3 : parseArgs argv = Except.ok args) :
    mainDispatch parseArgs func argv =
      (match func args with
       | (evs, HandlerOutcome.returns _) => (evs, MainOutcome.exit 0)
       | (evs, HandlerOutcome.raises (PyExc.databaseNotFound msg)) =>
         (evs ++ [Event.printed (msg ++ "\nHave you used any of the other utilities to collect data?")],
          MainOutcome.exit 1)
       | (evs, HandlerOutcome.raises e) => (evs, MainOutcome.raised e)) := by
  simp only [mainDispatch, h1, h2, h3, Bool.not_true, Bool.false_eq_true, if_false]

/-- C1: in the handler-invocation state, a DatabaseNotFound failure from the
handler is caught — the dispatcher prints the failure's message followed by
the fixed hint line and returns exit code 1 — while any other failure from
the handler propagates unmodified out of the dispatcher. -/
theorem dispatcher_translates_only_dbnotfound {Parsed : Type}
    (parseArgs : List String → Except Int Parsed)
    (func : Parsed → List Event × HandlerOutcome) (argv : List String) (args : Parsed)
    (h1 : moduleDocstringsContains (resolvedCommand argv) = true)
    (h2 : helpstrings.contains (secondArgument argv) = false)
    (h3 : parseArgs argv = Except.ok args) :
    (∀ evs msg, func args = (evs, HandlerOutcome.raises (PyExc.databaseNotFound msg)) →
      mainDispatch parseArgs func argv =
        (evs ++ [Event.printed (msg ++ "\nHave you used any of the other utilities to collect data?")],
         MainOutcome.exit 1)) ∧
    (∀ evs e, func args = (evs, HandlerOutcome.raises e) →
      (∀ msg, e ≠ PyExc.databaseNotFound msg) →
      mainDispatch parseArgs func argv = (evs, MainOutcome.raised e)) := by
  constructor
  · intro evs msg hf
    rw [mainDispatch_eq_handler parseArgs func argv args h1 h2 h3, hf]
  · intro evs e hf hne
    cases e with
    | databaseNotFound msg => exact absurd rfl (hne msg)
    | otherExc tag =>
      rw [mainDispatch_eq_handler parseArgs func argv args h1 h2 h3, hf]

/-- C1 witness: a stub handler raising DatabaseNotFound "oops" on
`get_comments -r test` yields the two-line message and exit code 1. -/
theorem dispatcher_translates_only_dbnotfound_witness :
    mainDispatch (fun _ : List String => Except.ok ())
        (fun _ : Unit => ([], HandlerOutcome.raises (PyExc.databaseNotFound "oops")))
        ["get_comments", "-r", "test"] =
      ([Event.printed ("oops" ++ "\nHave you used any of the other utilities to collect data?")],
       MainOutcome.exit 1) :=
  (dispatcher_translates_only_dbnotfound
    (fun _ : List String => Except.ok ())
    (fun _ : Unit => ([], HandlerOutcome.raises (PyExc.databaseNotFound "oops")))
    ["get_comments", "-r", "test"] () (by decide) (by decide) rfl).1 [] "oops" rfl

/-- C2 counterexample: a handler that completes normally with the nonzero
Python return value 5 does not get its code propagated — the dispatcher
returns exit code 0, refuting the claim that a nonzero handler code becomes
the invocation's exit code. -/
theorem dispatcher_discards_handler_code :
    mainDispatch (fun _ : List String => Except.ok ())
        (fun _ : Unit => ([], HandlerOutcome.returns 5)) ["get_comments", "-r", "test"]
      = ([], MainOutcome.exit 0) ∧ (5 : Int) ≠ 0 := by
  constructor
  · rfl
  · decide

/-- C2 amended: when the handler completes without raising, the dispatcher
discards the handler's return value and returns exit code 0, whatever that
value was. -/
theorem dispatcher_returns_zero_on_success {Parsed : Type}
    (parseArgs : List String → Except Int Parsed)
    (func : Parsed → List Event × HandlerOutcome) (argv : List String) (args : Parsed)
    (h1 : moduleDocstringsContains (resolvedCommand argv) = true)
    (h2 : helpstrings.contains (secondArgument argv) = false)
    (h3 : parseArgs argv = Except.ok args) :
    ∀ evs v, func args = (evs, HandlerOutcome.returns v) →
      mainDispatch parseArgs func argv = (evs, MainOutcome.exit 0) := by
  intro evs v hf
  rw [mainDispatch_eq_handler parseArgs func argv args h1 h2 h3, hf]

/-- C2 amended witness: a normally completing stub handler on
`get_comments -r test` gives exit code 0. -/
theorem dispatcher_returns_zero_on_success_witness :
    mainDispatch (fun _ : List String => Except.ok ())
        (fun _ : Unit => ([], HandlerOutcome.returns 0)) ["get_comments", "-r", "test"]
      = ([], MainOutcome.exit 0) :=
  dispatcher_returns_zero_on_success (fun _ : List String => Except.ok ())
    (fun _ : Unit => ([], HandlerOutcome.returns 0))
    ["get_comments", "-r", "test"] () (by decide) (by decide) rfl [] 0 rfl

/-- C3: when the first token, lowercased and alias-resolved, is not a key of
the registry, the dispatcher prints the full global help document and
returns exit code 1 without invoking any handler (the result is the same for
every handler and parser), appending the empty-token note, no note for a
help spelling, or the note naming the unrecognized token. -/
theorem unrecognized_prints_global_help {Parsed : Type}
    (parseArgs : List String → Except Int Parsed)
    (func : Parsed → List Event × HandlerOutcome) (argv : List String)
    (h : moduleDocstringsContains (resolvedCommand argv) = false) :
    mainDispatch parseArgs func argv =
      (Event.printed DOCSTRING ::
        (if resolvedCommand argv = "" then
          [Event.printed "You are seeing the default help text because you did not choose a command."]
        else if ! helpstrings.contains (resolvedCommand argv) then
          [Event.printed ("You are seeing the default help text because \"" ++ resolvedCommand argv ++ "\" was not recognized")]
        else []),
       MainOutcome.exit 1) :=
  mainDispatch_eq_unrecognized parseArgs func argv h

/-- C3 witness: dispatching `["bogus"]` prints the global document plus the
note naming `bogus`, with exit code 1. -/
theorem unrecognized_prints_global_help_witness :
    mainDispatch (fun _ : List String => Except.ok ())
        (fun _ : Unit => ([], HandlerOutcome.returns 0)) ["bogus"] =
      (Event.printed DOCSTRING ::
        (if resolvedCommand ["bogus"] = "" then
          [Event.printed "You are seeing the default help text because you did not choose a command."]
        else if ! helpstrings.contains (resolvedCommand ["bogus"]) then
          [Event.printed ("You are seeing the default help text because \"" ++ resolvedCommand ["bogus"] ++ "\" was not recognized")]
        else []),
       MainOutcome.exit 1) :=
  unrecognized_prints_global_help (fun _ : List String => Except.ok ())
    (fun _ : Unit => ([], HandlerOutcome.returns 0)) ["bogus"] (by decide)

/-- C4: when the first token resolves to a registered command and the second
token, lowercased, is absent or a help spelling, the dispatcher prints
exactly that command's full help text, returns exit code 1, and never
invokes the handler (the result is the same for every handler and parser). -/
theorem command_help_prints_module_docstring {Parsed : Type}
    (parseArgs : List String → Except Int Parsed)
    (func : Parsed → List Event × HandlerOutcome) (argv : List String)
    (h1 : moduleDocstringsContains (resolvedCommand argv) = true)
    (h2 : helpstrings.contains (secondArgument argv) = true) :
    mainDispatch parseArgs func argv =
      ([Event.printed (moduleDocstringsGet (resolvedCommand argv))], MainOutcome.exit 1) :=
  mainDispatch_eq_command_help parseArgs func argv h1 h2

/-- C4 witness: dispatching `["get_comments", "help"]` prints that command's
help text with exit code 1. -/
theorem command_help_prints_module_docstring_witness :
    mainDispatch (fun _ : List String => Except.ok ())
        (fun _ : Unit => ([], HandlerOutcome.returns 0)) ["get_comments", "help"] =
      ([Event.printed (moduleDocstringsGet (resolvedCommand ["get_comments", "help"]))],
       MainOutcome.exit 1) :=
  command_help_prints_module_docstring (fun _ : List String => Except.ok ())
    (fun _ : Unit => ([], HandlerOutcome.returns 0)) ["get_comments", "help"]
    (by decide) (by decide)

/-- C5: alias resolution is pure and total: the three legacy spellings map to
their canonical commands and every other token maps to itself. -/
theorem alias_resolution_spec :
    resolveAlias "timesearch" = "get_submissions" ∧
    resolveAlias "commentaugment" = "get_comments" ∧
    resolveAlias "redmash" = "index" ∧
    ∀ s : String, s ≠ "timesearch" → s ≠ "commentaugment" → s ≠ "redmash" →
      resolveAlias s = s := by
  refine ⟨rfl, rfl, rfl, ?_⟩
  intro s h1 h2 h3
  simp only [resolveAlias, OLD_COMMAND_ALIASES, dictGet]
  rw [if_neg (Ne.symm h1), if_neg (Ne.symm h2), if_neg (Ne.symm h3)]

/-- C5 witness: the non-aliased token `breakdown` resolves to itself. -/
theorem alias_resolution_spec_witness : resolveAlias "breakdown" = "breakdown" :=
  alias_resolution_spec.2.2.2 "breakdown" (by decide) (by decide) (by decide)

/-- C6: the registry constructed at startup satisfies the invariants — every
canonical name in the alias table's codomain is a registry key, and each
entry's first paragraph (as extracted by `docstring_preview`) is a strict
prefix of that entry's full help text. In this embedding the registry and
alias table are constants, so no operation can mutate them after
construction. -/
theorem registry_invariants_hold :
    (OLD_COMMAND_ALIASES.all (fun p => dictContains MODULE_DOCSTRINGS p.2)) = true ∧
    (MODULE_DOCSTRINGS.all (fun p =>
      (docstring_preview p.2).data.isPrefixOf p.2.data
        && (docstring_preview p.2 != p.2))) = true := by
  constructor
  · decide
  · decide

/-- C7: a collaborator-module load event appears in an invocation's trace
only when the dispatcher reached the handler-invocation state (registered
command, non-help second token, successful parse) and the event was produced
by the invoked handler itself; help-printing invocations and registry/help
construction (pure string values here) never load a collaborator. -/
theorem collaborator_loaded_only_by_invoked_handler {Parsed : Type}
    (parseArgs : List String → Except Int Parsed)
    (func : Parsed → List Event × HandlerOutcome) (argv : List String) (m : String)
    (hmem : Event.loadedModule m ∈ (mainDispatch parseArgs func argv).1) :
    moduleDocstringsContains (resolvedCommand argv) = true ∧
    helpstrings.contains (secondArgument argv) = false ∧
    ∃ args, parseArgs argv = Except.ok args ∧ Event.loadedModule m ∈ (func args).1 := by
  cases h1 : moduleDocstringsContains (resolvedCommand argv) with
  | false =>
    rw [mainDispatch_eq_unrecognized parseArgs func argv h1] at hmem
    rcases List.mem_cons.mp hmem with h | hmem2
    · exact absurd h (by simp)
    · split at hmem2 <;> simp at hmem2
  | true =>
    cases h2 : helpstrings.contains (secondArgument argv) with
    | true =>
      rw [mainDispatch_eq_command_help parseArgs func argv h1 h2] at hmem
      simp at hmem
    | false =>
      cases h3 : parseArgs argv with
      | error code =>
        rw [mainDispatch_eq_parse_error parseArgs func argv code h1 h2 h3] at hmem
        simp at hmem
      | ok args =>
        rw [mainDispatch_eq_handler parseArgs func argv args h1 h2 h3] at hmem
        refine ⟨rfl, rfl, args, rfl, ?_⟩
        cases hf : func args with
        | mk evs out =>
          rw [hf] at hmem
          cases out with
          | returns v => simpa using hmem
          | raises e =>
            cases e with
            | databaseNotFound msg =>
              simp only [] at hmem
              rcases List.mem_append.mp hmem with hm | hm
              · simpa using hm
              · simp at hm
            | otherExc tag => simpa using hmem

/-- C7 witness: a handler that loads its collaborator module produces the
load event from within the handler-invocation state. -/
theorem collaborator_loaded_only_by_invoked_handler_witness :
    moduleDocstringsContains (resolvedCommand ["get_comments", "-r", "test"]) = true ∧
    helpstrings.contains (secondArgument ["get_comments", "-r", "test"]) = false ∧
    ∃ args : Unit, (Except.ok () : Except Int Unit) = Except.ok args ∧
      Event.loadedModule "get_comments" ∈
        ([Event.loadedModule "get_comments"], HandlerOutcome.returns 0).1 :=
  collaborator_loaded_only_by_invoked_handler
    (fun _ : List String => Except.ok ())
    (fun _ : Unit => ([Event.loadedModule "get_comments"], HandlerOutcome.returns 0))
    ["get_comments", "-r", "test"] "get_comments" (by decide)

/-- C8: for every sequence, index, and fallback, `listget` is total (it is a
function, so it never raises): it returns the element at the index whenever
the index is in range in Python's sense (`-len ≤ i < len`, negative indices
counting from the end) and the fallback whenever the index is out of range. -/
theorem listget_in_range_element_else_fallback {α : Type} (li : List α) (i : Int) (fb : α) :
    (0 ≤ i → i < li.length →
      ∃ h : i.toNat < li.length, listget li i fb = li.get ⟨i.toNat, h⟩) ∧
    (i < 0 → -(li.length : Int) ≤ i →
      ∃ h : (i + li.length).toNat < li.length,
        listget li i fb = li.get ⟨(i + li.length).toNat, h⟩) ∧
    ((i < -(li.length : Int) ∨ (li.length : Int) ≤ i) → listget li i fb = fb) := by
  refine ⟨?_, ?_, ?_⟩
  · intro h0 hlt
    have hn : i.toNat < li.length := by omega
    refine ⟨hn, ?_⟩
    simp only [listget, pyIndex, if_neg (by omega : ¬ i < 0),
      List.getElem?_eq_getElem hn, List.get_eq_getElem]
  · intro hneg hge
    have hn : (i + li.length).toNat < li.length := by omega
    refine ⟨hn, ?_⟩
    simp only [listget, pyIndex, if_pos hneg, if_neg (by omega : ¬ i + (li.length : Int) < 0),
      List.getElem?_eq_getElem hn, List.get_eq_getElem]
  · intro hout
    rcases hout with hlo | hhi
    · have hneg : i < 0 := by omega
      simp only [listget, pyIndex, if_pos hneg, if_pos (by omega : i + (li.length : Int) < 0)]
    · have hge : ¬ i < 0 := by omega
      have hlen : li.length ≤ i.toNat := by omega
      simp only [listget, pyIndex, if_neg hge, List.getElem?_eq_none hlen]

/-- C8 witness: an out-of-range index on a two-element list yields the
fallback. -/
theorem listget_in_range_element_else_fallback_witness :
    listget ["a", "b"] (5 : Int) "z" = "z" :=
  (listget_in_range_element_else_fallback ["a", "b"] 5 "z").2.2 (Or.inr (by decide))

/-- C10: the dispatcher passes the original, un-lowercased and
un-alias-resolved vector to the argument parser; so whenever the first token
resolves to a registered command but its literal spelling is not one of the
subcommand spellings the parser accepts, and the second token is not a help
spelling, argument parsing rejects the vector (argparse raises SystemExit
with code 2 on an invalid subcommand choice) and the handler is never
invoked — the outcome is the same for every handler. -/
theorem literal_argv_parse_rejection {Parsed : Type}
    (parseArgs : List String → Except Int Parsed)
    (func : Parsed → List Event × HandlerOutcome) (argv : List String)
    (hparse : ∀ a : List String,
      subcommandNames.contains (listget a 0 "") = false → parseArgs a = Except.error 2)
    (h1 : moduleDocstringsContains (resolvedCommand argv) = true)
    (h2 : subcommandNames.contains (listget argv 0 "") = false)
    (h3 : helpstrings.contains (secondArgument argv) = false) :
    mainDispatch parseArgs func argv = ([], MainOutcome.parseExit 2) :=
  mainDispatch_eq_parse_error parseArgs func argv 2 h1 h3 (hparse argv h2)

/-- C10 witness: `["Timesearch", "-r", "test"]` resolves to the registered
`get_submissions` after lowercasing and alias resolution, but the literal
token `Timesearch` is not an accepted subcommand spelling, so a parser that
rejects invalid choices with SystemExit 2 ends the invocation there. -/
theorem literal_argv_parse_rejection_witness :
    mainDispatch
      (fun a : List String =>
        if subcommandNames.contains (listget a 0 "") then (Except.ok () : Except Int Unit)
        else Except.error 2)
      (fun _ : Unit => ([], HandlerOutcome.returns 0))
      ["Timesearch", "-r", "test"] = ([], MainOutcome.parseExit 2) :=
  literal_argv_parse_rejection
    (fun a : List String =>
      if subcommandNames.contains (listget a 0 "") then (Except.ok () : Except Int Unit)
      else Except.error 2)
    (fun _ : Unit => ([], HandlerOutcome.returns 0))
    ["Timesearch", "-r", "test"]
    (fun a ha => by simp only [ha, Bool.false_eq_true, if_false])
    (by decide) (by decide) (by decide)
